import Mathlib

/-!
Shallow embedding of the business-review REST API (`src/api/businesses.js`,
`src/api/reviews.js`, `src/api/users.js`, `src/api/photos.js`) and of its
validation helpers, together with proofs about the handlers' behaviour.

Request and row data are modelled as association lists of JSON-ish values;
each HTTP handler becomes a pure function from a database state (plus the
process-wide flags the source keeps) to a response outcome and a new state.
Database queries that may fail are modelled with `Except`, and the source's
un-`await`ed promises are modelled explicitly (`JsPromise`), since their
JavaScript truthiness drives the control flow in two handlers.
-/

set_option autoImplicit false

namespace CloudApi

/-- A JSON-ish JavaScript value as it appears in request bodies and rows. -/
inductive JsValue where
  | str (s : String)
  | num (n : Int)
  | undef
deriving DecidableEq, Repr

/-- A JavaScript object: an association list from field name to value. -/
abbrev Record := List (String × JsValue)

/-- A validation schema: field name paired with its `required` flag. -/
abbrev Schema := List (String × Bool)

/-- Whether an association list has an entry for key `k`. -/
def hasKey {α : Type} (r : List (String × α)) (k : String) : Bool :=
  r.any (fun p => p.1 == k)

/-- Property access `r[k]`: a missing field reads as `undefined` in JS. -/
def getField (r : Record) (k : String) : JsValue :=
  (List.lookup k r).getD JsValue.undef

/-- `parseInt` / integer-column view of a value: `undefined` parses to NaN
(no integer), a numeric string parses to its integer. -/
def jsToInt : JsValue → Option Int
  | .num n => some n
  | .str s => s.toInt?
  | .undef => none

/-- JS `==` between an integer column value and a parsed integer: a NaN on
either side compares unequal. -/
def jsLooseIntEq (a b : Option Int) : Bool :=
  match a, b with
  | some x, some y => x == y
  | _, _ => false

/-- Modelled from the spec: `validateAgainstSchema` from `lib/validation.js`,
which every handler requires but which is absent from the given sources.
Per the spec it returns whether every field marked required in the schema is
present in the input record. -/
def validateAgainstSchema (record : Record) (schema : Schema) : Bool :=
  schema.all (fun p => !p.2 || hasKey record p.1)

/-- Modelled from the spec: `extractValidFields` from the missing
`lib/validation.js`; it produces a filtered copy of the record containing
only the fields declared in the schema (unknown fields dropped, optional
fields passed through if present). -/
def extractValidFields (record : Record) (schema : Schema) : Record :=
  record.filter (fun p => hasKey schema p.1)

/-- An un-`await`ed JavaScript promise holding the computation it would
resolve to (or the error it would reject with). -/
inductive JsPromise (α : Type) where
  | pending (result : Except Unit α)
deriving Repr

/-- In JavaScript every object is truthy, a pending Promise included. -/
def JsPromise.truthy {α : Type} : JsPromise α → Bool := fun _ => true

/-! ## Businesses (`src/api/businesses.js`) -/

/-- State of the `businesses` table plus per-query failure switches used to
model a failing database. `nextId` is the table's AUTO_INCREMENT counter. -/
structure BizDb where
  rows : List (Nat × Record)
  nextId : Nat
  countFails : Bool
  selectFails : Bool
  insertFails : Bool
deriving DecidableEq, Repr

/-- The `businessSchema` object of `businesses.js`. -/
def businessSchema : Schema :=
  [("ownerid", true), ("name", true), ("address", true), ("city", true),
   ("state", true), ("zip", true), ("phone", true), ("category", true),
   ("subcategory", true), ("website", false), ("email", false)]

/-- `Math.ceil(count / pageSize)` for natural inputs. -/
def jsCeilDiv (count pageSize : Nat) : Nat :=
  (count + pageSize - 1) / pageSize

/-- The page clamp of `businesses.js` (done at lines 93-95 of the route and
again at lines 124-126 of `getBusinessesPage`):
`page = page > lastPage ? lastPage : page; page = page < 1 ? 1 : page`. -/
def clampPage (count : Nat) (page : Int) : Int :=
  let lastPage : Int := (jsCeilDiv count 10 : Nat)
  let p1 := if page > lastPage then lastPage else page
  if p1 < 1 then 1 else p1

/-- `parseInt(req.query.page) || 1`: an absent or non-numeric parameter
(NaN) defaults to 1, and so does an explicit 0 since 0 is falsy in JS. -/
def pageOrDefault : Option Int → Int
  | none => 1
  | some p => if p = 0 then 1 else p

/-- The page number the list route works with after parsing and clamping. -/
def routePage (count : Nat) (q : Option Int) : Int :=
  clampPage count (pageOrDefault q)

/-- Insert a row into a sequence kept sorted by id. -/
def insertSorted (x : Nat × Record) : List (Nat × Record) → List (Nat × Record)
  | [] => [x]
  | y :: ys => if x.1 ≤ y.1 then x :: y :: ys else y :: insertSorted x ys

/-- `ORDER BY id`: the table rows sorted by primary key. -/
def sortById (l : List (Nat × Record)) : List (Nat × Record) :=
  l.foldr insertSorted []

/-- `SELECT COUNT(*) AS count FROM businesses`. -/
def getBusinessesCount (db : BizDb) : Except Unit Nat :=
  if db.countFails then .error () else .ok db.rows.length

/-- `SELECT * FROM businesses ORDER BY id LIMIT offset,limit`. -/
def selectBusinessesPage (db : BizDb) (offset limit : Nat) :
    Except Unit (List (Nat × Record)) :=
  if db.selectFails then .error ()
  else .ok (((sortById db.rows).drop offset).take limit)

/-- The object returned by `getBusinessesPage`. -/
structure BusinessesPageResult where
  businesses : List (Nat × Record)
  page : Int
  totalPages : Nat
  pageSize : Nat
  count : Nat
deriving DecidableEq, Repr

/-- `getBusinessesPage` of `businesses.js` (lines 120-141): re-counts, re-clamps
the page, and selects one page of rows ordered by id. -/
def getBusinessesPage (db : BizDb) (page : Int) :
    Except Unit BusinessesPageResult := do
  let count ← getBusinessesCount db
  let p := clampPage count page
  let offset := ((p - 1) * 10).toNat
  let results ← selectBusinessesPage db offset 10
  pure ⟨results, p, jsCeilDiv count 10, 10, count⟩

/-- A handler's observable outcome: a response, a `next()` fallthrough, or an
error that escaped the handler (no response is sent). -/
inductive Resp where
  | idObj (id : Nat)
  | emptyObj
  | errMsg (msg : String)
  | pageObj (p : BusinessesPageResult)
  | pendingPromiseObj
  | reviewsObj (l : List Record)
  | photosObj (l : List Record)
deriving DecidableEq, Repr

inductive Outcome where
  | response (status : Nat) (body : Resp)
  | fallthrough
  | unhandled
deriving DecidableEq, Repr

/-- Whether an outcome is a response with the given status code. -/
def Outcome.hasStatus : Outcome → Nat → Bool
  | .response s _, t => s == t
  | _, _ => false

/-- `router.get('/')` of `businesses.js` (lines 84-142). The first
`getBusinessesCount()` call (line 92) happens before the `try` block, so its
failure escapes the handler; only `getBusinessesPage` runs inside `try`. -/
def listBusinesses (db : BizDb) (pageQuery : Option Int) : Outcome :=
  let page := pageOrDefault pageQuery
  match getBusinessesCount db with
  | .error _ => .unhandled
  | .ok count =>
    let page2 := clampPage count page
    match getBusinessesPage db page2 with
    | .ok b => .response 200 (.pageObj b)
    | .error _ =>
      .response 500 (.errMsg "Error fetching businesses list. Try again later.")

/-- `insertNewBusiness` (lines 163-171): filter the body through the schema,
`INSERT INTO businesses SET ?`, and return the generated key. -/
def insertNewBusiness (db : BizDb) (business : Record) :
    Except Unit (Nat × BizDb) :=
  let validatedBusiness := extractValidFields business businessSchema
  if db.insertFails then .error ()
  else .ok (db.nextId,
    { db with rows := db.rows ++ [(db.nextId, validatedBusiness)],
              nextId := db.nextId + 1 })

/-- `router.post('/')` of `businesses.js` (lines 147-172). -/
def businessesPost (db : BizDb) (body : Record) : Outcome × BizDb :=
  if validateAgainstSchema body businessSchema then
    match insertNewBusiness db body with
    | .ok (id, db2) => (.response 201 (.idObj id), db2)
    | .error _ => (.response 500 (.errMsg "Error inserting business into DB."), db)
  else
    (.response 400 (.errMsg "Request body is not a valid business object"), db)

/-! ## Reviews (`src/api/reviews.js`) -/

/-- State of the `reviews` table, with the AUTO_INCREMENT counter and an
insert-failure switch. -/
structure ReviewDb where
  rows : List (Nat × Record)
  nextId : Nat
  insertFails : Bool
deriving DecidableEq, Repr

/-- The `reviewSchema` object of `reviews.js`. -/
def reviewSchema : Schema :=
  [("userid", true), ("businessid", true), ("dollars", true),
   ("stars", true), ("review", false)]

/-- `checkUserReviewCount` (lines 99-111): counts reviews for the
(userid, businessid) pair and reports whether at least one exists. -/
def checkUserReviewCount (db : ReviewDb) (userID businessID : JsValue) : Bool :=
  decide (1 ≤ (db.rows.filter (fun r =>
    getField r.2 "userid" == userID && getField r.2 "businessid" == businessID)).length)

/-- `insertNewReview` (lines 114-126): sets the process-wide `posted` flag
from the duplicate check, throws if a duplicate exists, otherwise inserts.
Returns the query result together with the flag value it stored. -/
def insertNewReview (db : ReviewDb) (review : Record) :
    Except Unit (Nat × ReviewDb) × Bool :=
  let validatedReview := extractValidFields review reviewSchema
  let posted := checkUserReviewCount db (getField validatedReview "userid")
    (getField validatedReview "businessid")
  if posted then (.error (), posted)
  else if db.insertFails then (.error (), posted)
  else (.ok (db.nextId,
    { db with rows := db.rows ++ [(db.nextId, validatedReview)],
              nextId := db.nextId + 1 }), posted)

/-- `router.post('/')` of `reviews.js` (lines 76-127). `posted` is the value
of the process-wide flag before the request; the result carries the response,
the new table state and the flag value after the request. -/
def reviewsPost (db : ReviewDb) (posted : Bool) (body : Record) :
    Outcome × ReviewDb × Bool :=
  if validateAgainstSchema body reviewSchema then
    match insertNewReview db body with
    | (.ok (id, db2), posted2) => (.response 201 (.idObj id), db2, posted2)
    | (.error _, posted2) =>
      if posted2 then
        (.response 403 (.errMsg "User has already posted a review of this business"),
         db, posted2)
      else
        (.response 500 (.errMsg "Error inserting review into DB."), db, posted2)
  else
    (.response 400 (.errMsg "Request body is not a valid review object"), db, posted)

/-- `checkReviewEditParams` (lines 188-200): reads the stored row's
`userid`/`businessid` and compares them with `parseInt` of the body's values.
It resolves to `false` when both match and `true` when they differ; on a
missing row, `result[0]` is `undefined` and the property read throws. -/
def checkReviewEditParams (db : ReviewDb) (reviewID : Nat) (body : Record) :
    Except Unit Bool :=
  match (db.rows.filter (fun r => r.1 == reviewID)).head? with
  | none => .error ()
  | some r =>
    if jsLooseIntEq (jsToInt (getField r.2 "userid")) (jsToInt (getField body "userid"))
        && jsLooseIntEq (jsToInt (getField r.2 "businessid"))
             (jsToInt (getField body "businessid")) then
      .ok false
    else
      .ok true

/-- `UPDATE ... SET ?` on one row: fields present in `upd` overwrite the
stored columns. -/
def recordSet (r upd : Record) : Record :=
  r.map (fun p =>
    match List.lookup p.1 upd with
    | some w => (p.1, w)
    | none => p)

/-- `updateReviewById` (lines 202-216). The source assigns
`modified = checkReviewEditParams(reviewID)` WITHOUT `await`, so `modified`
holds a pending promise; `if (modified)` tests the promise object's
truthiness, which is always true, and the update therefore always runs.
Returns the query result (affectedRows flag and new state) and the promise
stored in the process-wide `modified` variable. MySQL reports affectedRows
as the number of rows actually changed. -/
def updateReviewById (db : ReviewDb) (reviewID : Nat) (body : Record) :
    Except Unit (Bool × ReviewDb) × JsPromise Bool :=
  let validatedReview := extractValidFields body reviewSchema
  let modified := JsPromise.pending (checkReviewEditParams db reviewID body)
  if modified.truthy then
    let newRows := db.rows.map (fun r =>
      if r.1 == reviewID then (r.1, recordSet r.2 validatedReview) else r)
    (.ok (decide (newRows ≠ db.rows), { db with rows := newRows }), modified)
  else
    (.error (), modified)

/-- `router.put('/:reviewID')` of `reviews.js` (lines 161-217). On a caught
error the catch block consults the `modified` variable (the promise object,
truthy) to decide between 403 and 500. -/
def reviewsPut (db : ReviewDb) (reviewID : Nat) (body : Record) :
    Outcome × ReviewDb :=
  if validateAgainstSchema body reviewSchema then
    match updateReviewById db reviewID body with
    | (.ok (true, db2), _) => (.response 200 .emptyObj, db2)
    | (.ok (false, db2), _) => (.fallthrough, db2)
    | (.error _, modified) =>
      if modified.truthy then
        (.response 403 (.errMsg "Updated review cannot modify businessid or userid"), db)
      else
        (.response 500 (.errMsg "Unable to update review."), db)
  else
    (.response 400 (.errMsg "Request body does not contain a valid review."), db)

/-! ## Users (`src/api/users.js`) -/

/-- State of the `photos` table (only its presence matters to the claims). -/
structure PhotoDb where
  rows : List (Nat × Record)
deriving DecidableEq, Repr

/-- The whole persistent database state seen by the users routes. -/
structure DbState where
  businesses : BizDb
  reviews : ReviewDb
  photos : PhotoDb
deriving DecidableEq, Repr

/-- `getBusinessesById` of `users.js` (lines 29-36): runs
`SELECT * FROM businesses WHERE ownerid = ?` and resolves to `results[0]`,
the FIRST matching row only (or `undefined`). -/
def getBusinessesById (db : BizDb) (userID : Int) :
    Except Unit (Option (Nat × Record)) :=
  if db.selectFails then .error ()
  else .ok ((db.rows.filter (fun r =>
    jsToInt (getField r.2 "ownerid") == some userID)).head?)

/-- `router.get('/:userid/businesses')` of `users.js` (lines 14-37). The
handler is not `async` and does not `await` `getBusinessesById`, so
`businesses` holds a pending promise: the truthiness test passes and
`res.send` serializes the pending promise (an empty JSON object). -/
def usersBusinessesRoute (db : BizDb) (userid : Int) : Outcome :=
  let businesses := JsPromise.pending (getBusinessesById db userid)
  if businesses.truthy then .response 200 .pendingPromiseObj
  else .fallthrough

/-- `reviews.js` assigns only `exports.router`, so
`const { reviews } = require('./reviews')` in `users.js` yields `undefined`:
there is no in-memory reviews collection. -/
def reviewsModuleCollection : Option (List Record) := none

/-- Likewise `photos.js` exports only its router, so the destructured
`photos` binding in `users.js` is `undefined`. -/
def photosModuleCollection : Option (List Record) := none

/-- `router.get('/:userid/reviews')` of `users.js` (lines 43-49). The handler
never touches the database; with the binding `undefined`, `reviews.filter`
throws a TypeError that propagates to the outer error middleware. -/
def usersReviewsRoute (_db : DbState) (userid : Int) : Outcome :=
  match reviewsModuleCollection with
  | none => .unhandled
  | some l =>
    .response 200 (.reviewsObj (l.filter (fun r =>
      getField r "userid" == JsValue.num userid)))

/-- `router.get('/:userid/photos')` of `users.js` (lines 54-60), same shape
as the reviews route. -/
def usersPhotosRoute (_db : DbState) (userid : Int) : Outcome :=
  match photosModuleCollection with
  | none => .unhandled
  | some l =>
    .response 200 (.photosObj (l.filter (fun r =>
      getField r "userid" == JsValue.num userid)))

/-! ## Helper lemmas -/

/-- The validator succeeds exactly when every required schema field is
present in the record. -/
theorem validateAgainstSchema_iff (r : Record) (s : Schema) :
    validateAgainstSchema r s = true ↔
      ∀ f : String, (f, true) ∈ s → hasKey r f = true := by
  rw [validateAgainstSchema, List.all_eq_true]
  constructor
  · intro h f hf
    have h2 := h (f, true) hf
    simpa using h2
  · intro h p hp
    obtain ⟨f, b⟩ := p
    cases b with
    | false => simp
    | true => simpa using h f hp

/-- With zero rows every page clamps to 1. -/
theorem clampPage_zero (p : Int) : clampPage 0 p = 1 := by
  simp only [clampPage, jsCeilDiv]
  split_ifs <;> omega

/-! ## Claim theorems -/

/-- C4: the validator accepts a record iff every field the schema marks
required is present, and the filtered output contains exactly the entries of
the record whose keys the schema declares (unknown fields dropped, optional
fields passed through if present). -/
theorem validator_accepts_iff_required_and_filters_intersection
    (r : Record) (s : Schema) :
    (validateAgainstSchema r s = true ↔
      ∀ f : String, (f, true) ∈ s → hasKey r f = true)
    ∧ (∀ k : String, ∀ v : JsValue,
        (k, v) ∈ extractValidFields r s ↔ (k, v) ∈ r ∧ hasKey s k = true) := by
  refine ⟨validateAgainstSchema_iff r s, ?_⟩
  intro k v
  simp [extractValidFields, List.mem_filter]

/-- C1: when a review for the (userid, businessid) pair of a valid request
body already exists, the POST is rejected with 403 and the duplicate-review
message — not 201 — the table is unchanged, and the `posted` flag ends true. -/
theorem reviewsPost_duplicate_rejected (db : ReviewDb) (posted : Bool)
    (body : Record)
    (hval : validateAgainstSchema body reviewSchema = true)
    (hdup : checkUserReviewCount db
      (getField (extractValidFields body reviewSchema) "userid")
      (getField (extractValidFields body reviewSchema) "businessid") = true) :
    reviewsPost db posted body =
      (.response 403 (.errMsg "User has already posted a review of this business"),
       db, true) := by
  simp [reviewsPost, insertNewReview, hval, hdup]

/-- A review row for user 1 on business 2. -/
def c1Row : Record :=
  [("userid", JsValue.num 1), ("businessid", JsValue.num 2),
   ("dollars", JsValue.num 1), ("stars", JsValue.num 4)]

/-- A reviews table already holding `c1Row`. -/
def c1Db : ReviewDb := ⟨[(1, c1Row)], 2, false⟩

/-- C1 witness: posting the same (userid, businessid) pair again against
`c1Db` concretely yields the 403 duplicate response and leaves the table
unchanged. -/
theorem reviewsPost_duplicate_rejected_witness :
    reviewsPost c1Db false c1Row =
      (.response 403 (.errMsg "User has already posted a review of this business"),
       c1Db, true) :=
  reviewsPost_duplicate_rejected c1Db false c1Row (by decide) (by decide)

/-- The stored review row for the C2 scenario: user 1, business 2. -/
def c2Stored : Record :=
  [("userid", JsValue.num 1), ("businessid", JsValue.num 2),
   ("dollars", JsValue.num 1), ("stars", JsValue.num 4)]

/-- Reviews table holding only `c2Stored` under id 1. -/
def c2Db : ReviewDb := ⟨[(1, c2Stored)], 2, false⟩

/-- A valid PUT body that changes `userid` from 1 to 99. -/
def c2Body : Record :=
  [("userid", JsValue.num 99), ("businessid", JsValue.num 2),
   ("dollars", JsValue.num 1), ("stars", JsValue.num 4)]

/-- C2 (code bug): a PUT whose `userid` differs from the stored row's value
is NOT rejected with 403: because `modified = checkReviewEditParams(reviewID)`
is never `await`ed, the (truthy) pending promise sends the handler down the
update path, so the request succeeds with 200 and the row's `userid` is
overwritten with 99. -/
theorem reviewsPut_ownership_change_applied :
    reviewsPut c2Db 1 c2Body =
      (.response 200 .emptyObj,
       ⟨[(1, [("userid", JsValue.num 99), ("businessid", JsValue.num 2),
              ("dollars", JsValue.num 1), ("stars", JsValue.num 4)])], 2, false⟩) := by
  decide

/-- C3 counterexample: with zero rows the list route still works with page 1,
which lies outside the (empty) claimed clamp target [1, ceil(0/10)] = [1, 0]. -/
theorem routePage_zero_count_outside_range :
    ¬ (1 ≤ routePage 0 (some 5)
        ∧ routePage 0 (some 5) ≤ (jsCeilDiv 0 10 : Nat)) := by
  decide

/-- C3 (amended to a nonempty table): for every row count ≥ 1 and every
requested page value, the route's parsed-and-clamped page lands in
[1, ceil(count/10)]; in particular for count = 25 the last page is 3, and the
requested pages 0 and -5 clamp to 1 while 99 clamps to 3. -/
theorem routePage_clamps_into_range :
    (∀ count : Nat, ∀ q : Option Int, 1 ≤ count →
      1 ≤ routePage count q ∧ routePage count q ≤ (jsCeilDiv count 10 : Nat))
    ∧ jsCeilDiv 25 10 = 3
    ∧ routePage 25 (some 0) = 1
    ∧ routePage 25 (some (-5)) = 1
    ∧ routePage 25 (some 99) = 3 := by
  refine ⟨?_, by decide, by decide, by decide, by decide⟩
  intro count q h
  cases q with
  | none =>
    simp only [routePage, pageOrDefault, clampPage, jsCeilDiv]
    split_ifs <;> omega
  | some p =>
    simp only [routePage, pageOrDefault, clampPage, jsCeilDiv]
    split_ifs <;> omega

/-- C3 witness: the amended clamp bound instantiated at count 25, page 7. -/
theorem routePage_clamps_into_range_witness :
    1 ≤ routePage 25 (some 7)
      ∧ routePage 25 (some 7) ≤ (jsCeilDiv 25 10 : Nat) :=
  routePage_clamps_into_range.1 25 (some 7) (by decide)

/-- C5: for a POST /businesses request against a healthy table whose
AUTO_INCREMENT counter is positive, a body containing every required field
yields 201 with the generated (positive) key and appends exactly the filtered
row; a body missing some required field yields 400 and leaves the table
unchanged. -/
theorem businessesPost_created_or_rejected (db : BizDb) (body : Record)
    (hwf : 1 ≤ db.nextId) (hins : db.insertFails = false) :
    ((∀ f : String, (f, true) ∈ businessSchema → hasKey body f = true) →
      businessesPost db body =
        (.response 201 (.idObj db.nextId),
         { db with rows := db.rows ++ [(db.nextId, extractValidFields body businessSchema)],
                   nextId := db.nextId + 1 })
      ∧ 1 ≤ db.nextId)
    ∧ (∀ f : String, (f, true) ∈ businessSchema → hasKey body f = false →
        businessesPost db body =
          (.response 400 (.errMsg "Request body is not a valid business object"), db)) := by
  constructor
  · intro hreq
    have hv : validateAgainstSchema body businessSchema = true :=
      (validateAgainstSchema_iff body businessSchema).mpr hreq
    refine ⟨?_, hwf⟩
    simp [businessesPost, insertNewBusiness, hv, hins]
  · intro f hf hmiss
    have hv : validateAgainstSchema body businessSchema = false := by
      rcases h : validateAgainstSchema body businessSchema with _ | _
      · rfl
      · have := (validateAgainstSchema_iff body businessSchema).mp h f hf
        rw [hmiss] at this
        exact absurd this (by simp)
    simp [businessesPost, hv]

/-- A complete business body for the C5 witness. -/
def c5Body : Record :=
  [("ownerid", JsValue.num 1), ("name", JsValue.str "Cafe"),
   ("address", JsValue.str "1 Main St"), ("city", JsValue.str "Corvallis"),
   ("state", JsValue.str "OR"), ("zip", JsValue.str "97330"),
   ("phone", JsValue.str "555-0100"), ("category", JsValue.str "food"),
   ("subcategory", JsValue.str "coffee"), ("extra", JsValue.str "dropped")]

/-- An empty businesses table with AUTO_INCREMENT at 1. -/
def c5Db : BizDb := ⟨[], 1, false, false, false⟩

/-- C5 witness: creating `c5Body` in the empty table concretely returns 201
with id 1 and stores the schema-filtered row. -/
theorem businessesPost_created_or_rejected_witness :
    businessesPost c5Db c5Body =
      (.response 201 (.idObj c5Db.nextId),
       { c5Db with
           rows := c5Db.rows ++ [(c5Db.nextId, extractValidFields c5Body businessSchema)],
           nextId := c5Db.nextId + 1 })
    ∧ 1 ≤ c5Db.nextId :=
  (businessesPost_created_or_rejected c5Db c5Body (by decide) (by decide)).1
    ((validateAgainstSchema_iff c5Body businessSchema).mp (by decide))

/-- C6: for a healthy database and a page number that is a fixed point of the
clamp (a page already clamped into range), `getBusinessesPage` returns
exactly the rows ordered by id at offsets (p-1)*10 through (p-1)*10+9,
with metadata page = p, totalPages = ceil(count/10), pageSize = 10, and
count equal to the total row count. -/
theorem getBusinessesPage_returns_page_and_metadata (db : BizDb) (p : Int)
    (hcf : db.countFails = false) (hsf : db.selectFails = false)
    (hp : clampPage db.rows.length p = p) :
    getBusinessesPage db p =
      .ok ⟨((sortById db.rows).drop ((p - 1) * 10).toNat).take 10, p,
           jsCeilDiv db.rows.length 10, 10, db.rows.length⟩ := by
  simp [getBusinessesPage, getBusinessesCount, selectBusinessesPage,
        hcf, hsf, hp, Except.bind, bind, pure, Except.pure]

/-- A three-row businesses table stored out of id order. -/
def c6Db : BizDb :=
  ⟨[(2, [("ownerid", JsValue.num 1), ("name", JsValue.str "B")]),
    (1, [("ownerid", JsValue.num 1), ("name", JsValue.str "A")]),
    (3, [("ownerid", JsValue.num 2), ("name", JsValue.str "C")])], 4,
   false, false, false⟩

/-- C6 witness: page 1 of `c6Db` concretely returns the first ten rows in id
order plus the pagination metadata. -/
theorem getBusinessesPage_returns_page_and_metadata_witness :
    getBusinessesPage c6Db 1 =
      .ok ⟨((sortById c6Db.rows).drop (((1 : Int) - 1) * 10).toNat).take 10, 1,
           jsCeilDiv c6Db.rows.length 10, 10, c6Db.rows.length⟩ :=
  getBusinessesPage_returns_page_and_metadata c6Db 1 rfl rfl (by decide)

/-- A one-row businesses table whose COUNT(*) query fails. -/
def c7FailDb : BizDb :=
  ⟨[(1, [("name", JsValue.str "b")])], 2, true, false, false⟩

/-- C7 counterexample: when the list route's row-count query fails, the
error is NOT turned into a 500 response — the count call sits before the
`try` block, so the rejection escapes the handler and no response is sent. -/
theorem listBusinesses_count_failure_uncaught :
    listBusinesses c7FailDb (some 1) = .unhandled
    ∧ Outcome.hasStatus (listBusinesses c7FailDb (some 1)) 500 = false
    ∧ c7FailDb.countFails = true := by
  decide

/-- C7 (amended): for the business list endpoint, a failure of a query
issued inside the `try` block (the page select) is caught and answered with
500 and the generic message; but a failure of the initial row-count query,
issued before the `try` block, is not caught and no response is sent. -/
theorem listBusinesses_error_handling :
    (∀ db : BizDb, ∀ q : Option Int,
      db.countFails = false → db.selectFails = true →
      listBusinesses db q =
        .response 500 (.errMsg "Error fetching businesses list. Try again later."))
    ∧ (∀ db : BizDb, ∀ q : Option Int, db.countFails = true →
        listBusinesses db q = .unhandled) := by
  constructor
  · intro db q h1 h2
    simp [listBusinesses, getBusinessesPage, getBusinessesCount,
          selectBusinessesPage, h1, h2, Except.bind, bind]
  · intro db q h
    simp [listBusinesses, getBusinessesCount, h]

/-- C7 witness: both halves of the amended statement at concrete databases:
a select failure yields the 500 response, a count failure yields no response. -/
theorem listBusinesses_error_handling_witness :
    listBusinesses ⟨[], 1, false, true, false⟩ (some 1) =
      .response 500 (.errMsg "Error fetching businesses list. Try again later.")
    ∧ listBusinesses ⟨[], 1, true, false, false⟩ (some 1) = .unhandled :=
  ⟨listBusinesses_error_handling.1 ⟨[], 1, false, true, false⟩ (some 1) rfl rfl,
   listBusinesses_error_handling.2 ⟨[], 1, true, false, false⟩ (some 1) rfl⟩

/-- First business owned by user 1. -/
def c8RowA : Record := [("ownerid", JsValue.num 1), ("name", JsValue.str "A")]

/-- Second business owned by user 1. -/
def c8RowB : Record := [("ownerid", JsValue.num 1), ("name", JsValue.str "B")]

/-- A businesses table in which user 1 owns two businesses. -/
def c8Db : BizDb := ⟨[(1, c8RowA), (2, c8RowB)], 3, false, false, false⟩

/-- C8 (code bug): GET /users/1/businesses does not respond with the list of
user 1's business rows. The handler is not async and never awaits the query,
so it sends the pending promise (which serializes as an empty object); and
even the value that promise resolves to is `results[0]` — only the first of
the two matching rows. -/
theorem usersBusinessesRoute_not_full_list :
    usersBusinessesRoute c8Db 1 = .response 200 .pendingPromiseObj
    ∧ getBusinessesById c8Db 1 = .ok (some (1, c8RowA))
    ∧ (c8Db.rows.filter (fun r =>
        jsToInt (getField r.2 "ownerid") == some 1)).length = 2 :=
  ⟨rfl, rfl, rfl⟩

/-- C9: the GET /users/:userid/reviews and GET /users/:userid/photos
responses never depend on the database: for any two database states the two
runs produce identical outcomes, because both handlers only consult the
(undefined) in-memory module bindings and never issue a query. -/
theorem usersReviewsPhotos_db_independent :
    ∀ db1 db2 : DbState, ∀ userid : Int,
      usersReviewsRoute db1 userid = usersReviewsRoute db2 userid
      ∧ usersPhotosRoute db1 userid = usersPhotosRoute db2 userid :=
  fun _ _ _ => ⟨rfl, rfl⟩

/-- The empty businesses table with a healthy database. -/
def emptyBizDb : BizDb := ⟨[], 1, false, false, false⟩

/-- C10: on an empty businesses table, GET /businesses with any requested
page responds 200 with no rows, page = 1, totalPages = 0, pageSize = 10 and
count = 0 — the returned page number 1 exceeds totalPages = 0. -/
theorem listBusinesses_empty_table (q : Option Int) :
    listBusinesses emptyBizDb q = .response 200 (.pageObj ⟨[], 1, 0, 10, 0⟩) := by
  have h1 : clampPage 0 (pageOrDefault q) = 1 := clampPage_zero _
  simp [listBusinesses, getBusinessesCount, getBusinessesPage,
        selectBusinessesPage, emptyBizDb, sortById, h1, clampPage_zero,
        Except.bind, bind, pure, Except.pure, jsCeilDiv]

end CloudApi
